import Mathlib

/- Formal model of the evaluation pipeline in src/agent_evaluator.py and of the
   companion agent handler in src/agent.py.

   Modelling conventions:
   - Python strings are Lean `String` (a list of characters); `str.lower()` is
     modelled by mapping `Char.toLower` over the characters (exact for the ASCII
     data this program handles), and the Python substring operator `in` by an
     explicit substring search over character lists.
   - Python float arithmetic on scores is modelled by exact rationals `ℚ`
     (the program only forms quotients of small naturals).
   - External effects are explicit parameters: the Lambda invocation boundary is
     an oracle `RequestPayload → InvokeOutcome`, the S3 client an oracle
     `S3Put → Except String Unit`, and each `datetime.utcnow()` reading a plain
     `String` argument.
-/

set_option autoImplicit false

namespace AgentEval

/-- Lowercasing of a Python string (`str.lower()`), character by character. -/
def lowerStr (s : String) : String := ⟨s.data.map Char.toLower⟩

/-- Does the character list `p` occur as a prefix of `t`? -/
def listStartsWith : List Char → List Char → Bool
  | [], _ => true
  | _ :: _, [] => false
  | a :: p, b :: t => a == b && listStartsWith p t

/-- Does the character list `p` occur as a contiguous substring of `t`?
The empty list is a substring of everything, as in Python. -/
def listContainsSub (p : List Char) : List Char → Bool
  | [] => p.isEmpty
  | c :: t => listStartsWith p (c :: t) || listContainsSub p t

/-- The Python membership test `needle in haystack` on strings. -/
def strIn (needle haystack : String) : Bool :=
  listContainsSub needle.data haystack.data

/-- Embeds `evaluate_response` (src/agent_evaluator.py, lines 62-69): count the
expected keywords whose lowercased form occurs in the lowercased response text
and divide by the number of keywords; `0` when the keyword list is empty. -/
def evaluate_response (response_text : String) (expected_keywords : List String) : ℚ :=
  let response_lower := lowerStr response_text
  let matched := expected_keywords.countP (fun keyword => strIn (lowerStr keyword) response_lower)
  if expected_keywords.isEmpty then 0
  else (matched : ℚ) / (expected_keywords.length : ℚ)

/-- C1: for every response text and non-empty keyword list, `evaluate_response`
returns exactly the number of case-insensitively matched keywords divided by the
number of keywords, and the value lies in [0,1]. -/
theorem evaluate_response_exact_fraction (text : String) (kws : List String) (h : kws ≠ []) :
    evaluate_response text kws =
      (kws.countP (fun keyword => strIn (lowerStr keyword) (lowerStr text)) : ℚ) /
        (kws.length : ℚ) ∧
    0 ≤ evaluate_response text kws ∧ evaluate_response text kws ≤ 1 := by
  have hne : kws.isEmpty = false := by
    cases kws with
    | nil => exact absurd rfl h
    | cons a l => rfl
  have hlen : 0 < kws.length := by
    cases kws with
    | nil => exact absurd rfl h
    | cons a l => simp
  constructor
  · simp [evaluate_response, hne]
  · unfold evaluate_response
    simp only [hne, Bool.false_eq_true, if_false]
    constructor
    · apply div_nonneg
      · exact_mod_cast Nat.zero_le _
      · exact_mod_cast Nat.zero_le _
    · rw [div_le_one (by exact_mod_cast hlen)]
      exact_mod_cast List.countP_le_length _

/-- Witness for C1: the worked example from the specification scores 1. -/
theorem evaluate_response_exact_fraction_witness :
    (evaluate_response "This covers PCI and payment card data" ["PCI", "payment", "card"] =
      ((["PCI", "payment", "card"].countP
          (fun keyword => strIn (lowerStr keyword) (lowerStr "This covers PCI and payment card data"))) : ℚ) /
        ((["PCI", "payment", "card"].length : Nat) : ℚ) ∧
      0 ≤ evaluate_response "This covers PCI and payment card data" ["PCI", "payment", "card"] ∧
      evaluate_response "This covers PCI and payment card data" ["PCI", "payment", "card"] ≤ 1) ∧
    evaluate_response "This covers PCI and payment card data" ["PCI", "payment", "card"] = 1 := by
  have h := evaluate_response_exact_fraction "This covers PCI and payment card data"
    ["PCI", "payment", "card"] (by decide)
  refine ⟨h, ?_⟩
  have hc : (["PCI", "payment", "card"].countP
      (fun keyword => strIn (lowerStr keyword) (lowerStr "This covers PCI and payment card data"))) = 3 := by
    decide
  rw [h.1, hc]
  norm_num

/-- C2: the empty keyword list scores 0 for every response text — the division
is guarded, so no fault and no automatic pass. -/
theorem evaluate_response_empty_keywords (text : String) :
    evaluate_response text [] = 0 := rfl

/-- C9: `evaluate_response` is deterministic and reads no state besides its two
arguments — two runs on equal inputs return equal scores. In this embedding the
function is pure by construction because its source reads and writes no global;
the theorem records that the result depends only on the argument values. -/
theorem evaluate_response_deterministic (t1 t2 : String) (k1 k2 : List String)
    (ht : t1 = t2) (hk : k1 = k2) :
    evaluate_response t1 k1 = evaluate_response t2 k2 := by
  subst ht; subst hk; rfl

/-- Witness for C9 at a concrete input. -/
theorem evaluate_response_deterministic_witness :
    evaluate_response "PCI data" ["pci"] = evaluate_response "PCI data" ["pci"] :=
  evaluate_response_deterministic "PCI data" "PCI data" ["pci"] ["pci"] rfl rfl

/-- Embeds a TEST_CASES entry (src/agent_evaluator.py, lines 10-59). -/
structure TestCase where
  id : String
  query : String
  category : String
  expected_keywords : List String
deriving DecidableEq

/-- The fixed battery of test cases (src/agent_evaluator.py, lines 10-59). -/
def TEST_CASES : List TestCase :=
  [ { id := "compliance-1", query := "What are the most common compliance frameworks?",
      category := "compliance_frameworks", expected_keywords := ["PCI DSS", "NIST", "ISO", "HIPPA"] },
    { id := "compliance-2", query := "Tell me about HIPAA compliance",
      category := "compliance_frameworks", expected_keywords := ["HIPAA", "health", "compliance"] },
    { id := "compliance-3", query := "What is PCI DSS?",
      category := "compliance_frameworks", expected_keywords := ["PCI", "payment", "card"] },
    { id := "aws-docs-1", query := "What are AWS Lambda best practices?",
      category := "aws_documentation", expected_keywords := ["Lambda", "AWS", "best practices"] },
    { id := "aws-docs-2", query := "How do I secure an S3 bucket?",
      category := "aws_documentation", expected_keywords := ["S3", "security", "bucket"] },
    { id := "security-news-1", query := "Show me the latest AWS security news",
      category := "security_news", expected_keywords := ["security", "AWS"] },
    { id := "security-news-2", query := "Give me 5 recent security posts",
      category := "security_news", expected_keywords := ["security"] },
    { id := "knowledge-base-1", query := "What information do you have about SHIP?",
      category := "knowledge_base", expected_keywords := ["Security Health Improvement Program"] } ]

/-- The invocation payload built for each case (src/agent_evaluator.py, lines 93-98):
the query as prompt plus the session identifier. -/
structure RequestPayload where
  prompt : String
  session_id : String
deriving DecidableEq

/-- Builds the invocation payload of run_evaluation for one case. -/
def buildPayload (session_id : String) (tc : TestCase) : RequestPayload :=
  { prompt := tc.query, session_id := session_id }

/-- The JSON document the companion agent nests inside its body string
(src/agent.py, lines 66-71), kept structural rather than serialized. -/
inductive BodyDoc where
  | responseDoc (answer : String)
deriving DecidableEq

/-- The parsed Lambda response payload, restricted to the keys this program
reads or writes: a numeric statusCode, a top-level response string, and the
agent's body document. An absent key is `none`. -/
structure InvokePayload where
  statusCode : Option Int
  response : Option String
  body : Option BodyDoc
deriving DecidableEq

/-- Raw outcome of one `lambda_client.invoke` call: either the transport layer
raised (its message abstracted as a string), or a parsed payload came back along
with an optional FunctionError marker and the optional duration header read on
line 133. `none` for functionError models an absent or falsy marker. -/
inductive InvokeOutcome where
  | transportError (msg : String)
  | ok (functionError : Option String) (payload : InvokePayload) (durationHeader : Option String)
deriving DecidableEq

/-- Renders an optional numeric status the way Python prints it in an f-string
(`None` when the key is absent). -/
def statusText : Option Int → String
  | none => "None"
  | some n => toString n

/-- Abstract rendering of a parsed payload, standing in for Python's f-string
interpolation of the whole dict on line 112; no claim depends on its exact text. -/
def payloadText (p : InvokePayload) : String :=
  "payload with statusCode " ++ statusText p.statusCode

/-- The three fault shapes the per-case try block can catch (src/agent_evaluator.py,
lines 91-118): a transport-level failure, a FunctionError marker, or a
non-success application statusCode. -/
inductive Fault where
  | transport (msg : String)
  | functionError (marker : String) (payload : InvokePayload)
  | badStatus (statusCode : Option Int)
deriving DecidableEq

/-- The message `str(e)` carried by each fault, as raised on lines 112 and 118. -/
def faultMessage : Fault → String
  | .transport msg => msg
  | .functionError _ p => "Lambda error: " ++ payloadText p
  | .badStatus sc => "Agent returned status " ++ statusText sc

/-- Embeds lines 101-118 of src/agent_evaluator.py: fault checking and response
extraction. On statusCode 200 the response text is `payload.get('response', '')`,
so an absent response key defaults to the empty string. -/
def extractResponse : InvokeOutcome → Except Fault String
  | .transportError msg => .error (.transport msg)
  | .ok (some marker) p _ => .error (.functionError marker p)
  | .ok none p _ =>
    if p.statusCode = some 200 then .ok (p.response.getD "")
    else .error (.badStatus p.statusCode)

/-- The duration header recorded on line 133 of src/agent_evaluator.py. -/
def durationOf : InvokeOutcome → Option String
  | .transportError _ => none
  | .ok _ _ d => d

/-- Embeds one result dict appended by run_evaluation (src/agent_evaluator.py,
lines 124-134 and 140-149). `lambda_duration_ms` is `none` where the error
branch omits the key. -/
structure CaseResult where
  test_id : String
  category : String
  query : String
  expected_keywords : List String
  response : String
  score : ℚ
  status : String
  timestamp : String
  lambda_duration_ms : Option String
deriving DecidableEq

/-- One iteration of the loop body of run_evaluation (src/agent_evaluator.py,
lines 83-150) for the test case `tc`: invoke, extract, score, and build the
result record; any fault yields the error record of lines 140-149. The
per-case `datetime.utcnow()` reading is the ambient argument `ts`. -/
def runCase (invoke : RequestPayload → InvokeOutcome) (session_id ts : String)
    (tc : TestCase) : CaseResult :=
  match extractResponse (invoke (buildPayload session_id tc)) with
  | .ok response_text =>
    let score := evaluate_response response_text tc.expected_keywords
    { test_id := tc.id, category := tc.category, query := tc.query,
      expected_keywords := tc.expected_keywords, response := response_text,
      score := score, status := if 1/2 ≤ score then "passed" else "failed",
      timestamp := ts, lambda_duration_ms := durationOf (invoke (buildPayload session_id tc)) }
  | .error f =>
    { test_id := tc.id, category := tc.category, query := tc.query,
      expected_keywords := tc.expected_keywords, response := "ERROR: " ++ faultMessage f,
      score := 0, status := "error", timestamp := ts, lambda_duration_ms := none }

/-- Embeds run_evaluation (src/agent_evaluator.py, lines 72-152): one result per
test case, in enumeration order, against the invocation oracle `invoke`. -/
def run_evaluation (invoke : RequestPayload → InvokeOutcome) (session_id ts : String) :
    List CaseResult :=
  TEST_CASES.map (runCase invoke session_id ts)

/-- Embeds the value returned by the companion agent handler (src/agent.py,
lines 66-71): statusCode 200 with the answer nested inside the body document,
and no top-level response key. -/
def agent_lambda_response (answer : String) : InvokePayload :=
  { statusCode := some 200, response := none, body := some (.responseDoc answer) }

/-- Rewrites `runCase` on a successful extraction. -/
theorem runCase_ok_eq (invoke : RequestPayload → InvokeOutcome) (session_id ts : String)
    (tc : TestCase) (text : String)
    (hx : extractResponse (invoke (buildPayload session_id tc)) = .ok text) :
    runCase invoke session_id ts tc =
      { test_id := tc.id, category := tc.category, query := tc.query,
        expected_keywords := tc.expected_keywords, response := text,
        score := evaluate_response text tc.expected_keywords,
        status := if 1/2 ≤ evaluate_response text tc.expected_keywords then "passed" else "failed",
        timestamp := ts,
        lambda_duration_ms := durationOf (invoke (buildPayload session_id tc)) } := by
  unfold runCase
  rw [hx]

/-- Rewrites `runCase` on a faulted extraction. -/
theorem runCase_error_eq (invoke : RequestPayload → InvokeOutcome) (session_id ts : String)
    (tc : TestCase) (f : Fault)
    (hx : extractResponse (invoke (buildPayload session_id tc)) = .error f) :
    runCase invoke session_id ts tc =
      { test_id := tc.id, category := tc.category, query := tc.query,
        expected_keywords := tc.expected_keywords, response := "ERROR: " ++ faultMessage f,
        score := 0, status := "error", timestamp := ts, lambda_duration_ms := none } := by
  unfold runCase
  rw [hx]

/-- Over the empty response text every non-empty keyword fails the substring test,
so the score collapses to 0. -/
theorem evaluate_response_empty_text (kws : List String) (hkw : ∀ k ∈ kws, k ≠ "") :
    evaluate_response "" kws = 0 := by
  cases kws with
  | nil => rfl
  | cons k ks =>
    have hc : ((k :: ks).countP (fun keyword => strIn (lowerStr keyword) (lowerStr ""))) = 0 := by
      rw [List.countP_eq_zero]
      intro a ha
      have hne : a.data ≠ [] := by
        intro hd
        apply hkw a ha
        cases a with
        | mk d =>
          simp only at hd
          subst hd
          rfl
      cases hdata : a.data with
      | nil => exact absurd hdata hne
      | cons c cs => simp [strIn, lowerStr, listContainsSub, hdata]
    simp [evaluate_response, hc]

/-- C3: every CaseResult produced by run_evaluation comes from a test case; on a
successful extraction its status is "passed" exactly when its score is at least 1/2
and "failed" exactly when it is below 1/2; status "error" occurs exactly when the
extraction faulted, and then the score is forced to 0; a score of exactly 1/2
always yields "passed". -/
theorem run_evaluation_status_iff (invoke : RequestPayload → InvokeOutcome)
    (session_id ts : String) (r : CaseResult)
    (hr : r ∈ run_evaluation invoke session_id ts) :
    ∃ tc ∈ TEST_CASES,
      (∀ text, extractResponse (invoke (buildPayload session_id tc)) = .ok text →
        ((r.status = "passed" ↔ 1/2 ≤ r.score) ∧ (r.status = "failed" ↔ r.score < 1/2))) ∧
      (∀ f, extractResponse (invoke (buildPayload session_id tc)) = .error f →
        r.status = "error" ∧ r.score = 0) ∧
      (r.status = "error" → ∃ f, extractResponse (invoke (buildPayload session_id tc)) = .error f) ∧
      (r.score = 1/2 → r.status = "passed") := by
  rcases List.mem_map.1 hr with ⟨tc, htc, hrc⟩
  subst hrc
  cases hx : extractResponse (invoke (buildPayload session_id tc)) with
  | ok text =>
    rw [runCase_ok_eq invoke session_id ts tc text hx]
    refine ⟨tc, htc, ?_, ?_, ?_, ?_⟩
    · intro t' _
      by_cases hs : (1/2 : ℚ) ≤ evaluate_response text tc.expected_keywords
      all_goals simp_all
    · intro f hf
      rw [hx] at hf
      simp at hf
    · intro habs
      by_cases hs : (1/2 : ℚ) ≤ evaluate_response text tc.expected_keywords
      · rw [if_pos hs] at habs
        dsimp only at habs
        exact absurd habs (by decide)
      · rw [if_neg hs] at habs
        dsimp only at habs
        exact absurd habs (by decide)
    · intro h12
      simp only at h12 ⊢
      rw [if_pos (le_of_eq h12.symm)]
  | error f =>
    rw [runCase_error_eq invoke session_id ts tc f hx]
    refine ⟨tc, htc, ?_, ?_, ?_, ?_⟩
    · intro t' ht'
      rw [hx] at ht'
      simp at ht'
    · intro f' _
      exact ⟨rfl, rfl⟩
    · intro _
      exact ⟨f, hx⟩
    · intro h12
      simp only at h12
      norm_num at h12

/-- A stub invocation oracle whose payload always carries statusCode 200 and a fixed
response naming several keywords. -/
def invokeOkStub : RequestPayload → InvokeOutcome :=
  fun _ => .ok none
    { statusCode := some 200,
      response := some "PCI DSS, NIST, ISO and HIPPA are common frameworks.",
      body := none } none

/-- A stub invocation oracle that fails at the transport level for exactly the PCI
test case and succeeds elsewhere. -/
def invokeFaulty : RequestPayload → InvokeOutcome :=
  fun p =>
    if p.prompt = "What is PCI DSS?" then .transportError "Connection refused"
    else .ok none
      { statusCode := some 200, response := some "No keywords here.", body := none } none

/-- The first entry of TEST_CASES, spelled out for concrete instantiations. -/
def tcCompliance1 : TestCase :=
  { id := "compliance-1", query := "What are the most common compliance frameworks?",
    category := "compliance_frameworks", expected_keywords := ["PCI DSS", "NIST", "ISO", "HIPPA"] }

/-- The third entry of TEST_CASES, spelled out for concrete instantiations. -/
def tcCompliance3 : TestCase :=
  { id := "compliance-3", query := "What is PCI DSS?",
    category := "compliance_frameworks", expected_keywords := ["PCI", "payment", "card"] }

/-- Witness for C3 on the first test case under the always-successful stub oracle. -/
theorem run_evaluation_status_iff_witness :
    ∃ tc ∈ TEST_CASES,
      (∀ text, extractResponse (invokeOkStub (buildPayload "eval-session" tc)) = .ok text →
        (((runCase invokeOkStub "eval-session" "t0" tcCompliance1).status = "passed" ↔
            1/2 ≤ (runCase invokeOkStub "eval-session" "t0" tcCompliance1).score) ∧
         ((runCase invokeOkStub "eval-session" "t0" tcCompliance1).status = "failed" ↔
            (runCase invokeOkStub "eval-session" "t0" tcCompliance1).score < 1/2))) ∧
      (∀ f, extractResponse (invokeOkStub (buildPayload "eval-session" tc)) = .error f →
        (runCase invokeOkStub "eval-session" "t0" tcCompliance1).status = "error" ∧
        (runCase invokeOkStub "eval-session" "t0" tcCompliance1).score = 0) ∧
      ((runCase invokeOkStub "eval-session" "t0" tcCompliance1).status = "error" →
        ∃ f, extractResponse (invokeOkStub (buildPayload "eval-session" tc)) = .error f) ∧
      ((runCase invokeOkStub "eval-session" "t0" tcCompliance1).score = 1/2 →
        (runCase invokeOkStub "eval-session" "t0" tcCompliance1).status = "passed") :=
  run_evaluation_status_iff invokeOkStub "eval-session" "t0"
    (runCase invokeOkStub "eval-session" "t0" tcCompliance1)
    (List.mem_map_of_mem _ (by decide))

/-- C4: a fault in any one case yields, for that case alone, the error record with
score 0, status "error", and the fault detail embedded in the response, and never
shortens the run: the result list always has exactly one entry per test case, in
enumeration order, whatever the invocation oracle does. -/
theorem run_evaluation_fault_isolation (invoke : RequestPayload → InvokeOutcome)
    (session_id ts : String) :
    (run_evaluation invoke session_id ts).length = TEST_CASES.length ∧
    ∀ i tc, TEST_CASES.get? i = some tc →
      (run_evaluation invoke session_id ts).get? i = some (runCase invoke session_id ts tc) ∧
      ∀ f, extractResponse (invoke (buildPayload session_id tc)) = .error f →
        runCase invoke session_id ts tc =
          { test_id := tc.id, category := tc.category, query := tc.query,
            expected_keywords := tc.expected_keywords,
            response := "ERROR: " ++ faultMessage f, score := 0, status := "error",
            timestamp := ts, lambda_duration_ms := none } := by
  refine ⟨by simp [run_evaluation], ?_⟩
  intro i tc htc
  constructor
  · show (TEST_CASES.map (runCase invoke session_id ts)).get? i = _
    rw [List.get?_map, htc]
    rfl
  · intro f hf
    exact runCase_error_eq invoke session_id ts tc f hf

/-- Witness for C4: the faulty oracle breaks only the PCI case (index 2) while the
run still yields all eight results. -/
theorem run_evaluation_fault_isolation_witness :
    (run_evaluation invokeFaulty "s0" "t0").length = TEST_CASES.length ∧
    (run_evaluation invokeFaulty "s0" "t0").get? 2 =
      some (runCase invokeFaulty "s0" "t0" tcCompliance3) ∧
    runCase invokeFaulty "s0" "t0" tcCompliance3 =
      { test_id := "compliance-3", category := "compliance_frameworks",
        query := "What is PCI DSS?", expected_keywords := ["PCI", "payment", "card"],
        response := "ERROR: Connection refused", score := 0, status := "error",
        timestamp := "t0", lambda_duration_ms := none } := by
  have h := run_evaluation_fault_isolation invokeFaulty "s0" "t0"
  have h2 := h.2 2 tcCompliance3 (by decide)
  refine ⟨h.1, h2.1, ?_⟩
  have h3 := h2.2 (.transport "Connection refused") rfl
  exact h3

/-- A test case whose keyword list is non-empty but contains the empty string. -/
def tcEmptyKeyword : TestCase :=
  { id := "x-1", query := "q", category := "aws_documentation", expected_keywords := [""] }

/-- A stub oracle that always replies with the companion agent handler's payload
shape: statusCode 200, answer nested in the body document, no top-level response. -/
def invokeAgentStub : RequestPayload → InvokeOutcome :=
  fun _ => .ok none (agent_lambda_response "Lambda best practices include small packages.") none

/-- C10 counterexample: under the agent's payload shape (statusCode 200, no top-level
response field) the extracted text is "", yet a case whose non-empty keyword list is
[""] scores 1 and passes, because the empty keyword is a substring of the empty text —
refuting the claim that every non-empty keyword list then yields score 0 and status
"failed". -/
theorem missing_response_counterexample :
    tcEmptyKeyword.expected_keywords ≠ [] ∧
    (runCase invokeAgentStub "s0" "t0" tcEmptyKeyword).response = "" ∧
    (runCase invokeAgentStub "s0" "t0" tcEmptyKeyword).score = 1 ∧
    (runCase invokeAgentStub "s0" "t0" tcEmptyKeyword).status = "passed" := by
  have hx : extractResponse (invokeAgentStub (buildPayload "s0" tcEmptyKeyword)) = .ok "" := rfl
  have heq := runCase_ok_eq invokeAgentStub "s0" "t0" tcEmptyKeyword "" hx
  have hc : ([""].countP (fun keyword => strIn (lowerStr keyword) (lowerStr ""))) = 1 := by decide
  have hsc : evaluate_response "" [""] = 1 := by
    simp [evaluate_response, hc]
  rw [heq]
  refine ⟨by decide, rfl, ?_, ?_⟩
  · show evaluate_response "" tcEmptyKeyword.expected_keywords = 1
    exact hsc
  · show (if 1/2 ≤ evaluate_response "" tcEmptyKeyword.expected_keywords then
        "passed" else "failed") = "passed"
    have h12 : (1/2 : ℚ) ≤ evaluate_response "" tcEmptyKeyword.expected_keywords := by
      show (1/2 : ℚ) ≤ evaluate_response "" [""]
      rw [hsc]
      norm_num
    rw [if_pos h12]

/-- C10 (amended): when an invocation succeeds with statusCode 200 but the payload has
no top-level response field, the Runner records no error: the response text defaults to
"", and for any non-empty keyword list whose keywords are themselves non-empty the case
scores 0 with status "failed" (an empty-string keyword would match, so it is excluded;
every keyword list in TEST_CASES is of this shape, so every actual case behaves so). The
companion agent handler's payload (src/agent.py) has exactly this shape — statusCode 200
with the answer nested in the body document — so each of its successful replies extracts
as the empty string. -/
theorem missing_response_scores_zero (invoke : RequestPayload → InvokeOutcome)
    (session_id ts : String) (tc : TestCase) (p : InvokePayload) (dur : Option String)
    (hinv : invoke (buildPayload session_id tc) = .ok none p dur)
    (hsc : p.statusCode = some 200) (hresp : p.response = none)
    (hne : tc.expected_keywords ≠ []) (hkw : ∀ k ∈ tc.expected_keywords, k ≠ "") :
    (runCase invoke session_id ts tc).response = "" ∧
    (runCase invoke session_id ts tc).score = 0 ∧
    (runCase invoke session_id ts tc).status = "failed" ∧
    (∀ answer dur2, extractResponse (.ok none (agent_lambda_response answer) dur2) = .ok "") ∧
    (∀ tc2 ∈ TEST_CASES, tc2.expected_keywords ≠ [] ∧ ∀ k ∈ tc2.expected_keywords, k ≠ "") := by
  have hx : extractResponse (invoke (buildPayload session_id tc)) = .ok "" := by
    rw [hinv]
    simp [extractResponse, hsc, hresp]
  have heq := runCase_ok_eq invoke session_id ts tc "" hx
  have hs0 : evaluate_response "" tc.expected_keywords = 0 :=
    evaluate_response_empty_text _ hkw
  rw [heq]
  refine ⟨rfl, hs0, ?_, ?_, ?_⟩
  · show (if 1/2 ≤ evaluate_response "" tc.expected_keywords then "passed" else "failed")
        = "failed"
    rw [hs0, if_neg (by norm_num)]
  · intro answer dur2
    rfl
  · decide

/-- Witness for C10 (amended) at the agent stub oracle and the PCI test case. -/
theorem missing_response_scores_zero_witness :
    (runCase invokeAgentStub "s0" "t0" tcCompliance3).response = "" ∧
    (runCase invokeAgentStub "s0" "t0" tcCompliance3).score = 0 ∧
    (runCase invokeAgentStub "s0" "t0" tcCompliance3).status = "failed" ∧
    extractResponse
      (.ok none (agent_lambda_response "Lambda best practices include small packages.") none)
      = .ok "" ∧
    (tcCompliance1.expected_keywords ≠ [] ∧
      ∀ k ∈ tcCompliance1.expected_keywords, k ≠ "") := by
  have h := missing_response_scores_zero invokeAgentStub "s0" "t0" tcCompliance3
    (agent_lambda_response "Lambda best practices include small packages.") none
    rfl rfl rfl (by decide) (by decide)
  exact ⟨h.1, h.2.1, h.2.2.1,
    h.2.2.2.1 "Lambda best practices include small packages." none,
    h.2.2.2.2 tcCompliance1 (by decide)⟩

/-- The per-category record built by generate_summary (src/agent_evaluator.py,
lines 166-177): during the pass avg_score holds the running score sum and is
divided by the category's count only afterwards. -/
structure CatStats where
  total : Nat
  passed : Nat
  avg_score : ℚ
deriving DecidableEq

/-- The fresh category record of line 170. -/
def catInit : CatStats := { total := 0, passed := 0, avg_score := 0 }

/-- One result's contribution to its category record (lines 171-174). -/
def bumpCat (s : CatStats) (r : CaseResult) : CatStats :=
  { total := s.total + 1,
    passed := s.passed + (if r.status = "passed" then 1 else 0),
    avg_score := s.avg_score + r.score }

/-- One iteration of the category loop (lines 167-174) over the insertion-ordered
category dictionary, modelled as an association list: the first entry with the
result's category is bumped, and a missing category is appended fresh. -/
def updateCats : List (String × CatStats) → CaseResult → List (String × CatStats)
  | [], r => [(r.category, bumpCat catInit r)]
  | (c, s) :: rest, r =>
    if c = r.category then (c, bumpCat s r) :: rest
    else (c, s) :: updateCats rest r

/-- The category dictionary after the whole pass of lines 166-174. -/
def rawCategories (results : List CaseResult) : List (String × CatStats) :=
  results.foldl updateCats []

/-- The normalization of lines 176-177: each category's score sum becomes the
average by dividing by that category's count. -/
def normalizeCat (e : String × CatStats) : String × CatStats :=
  (e.1, { e.2 with avg_score := e.2.avg_score / (e.2.total : ℚ) })

/-- Embeds the summary dict returned on lines 179-188. -/
structure Summary where
  total_tests : Nat
  passed : Nat
  failed : Nat
  errors : Nat
  pass_rate : ℚ
  average_score : ℚ
  categories : List (String × CatStats)
  timestamp : String
deriving DecidableEq

/-- Embeds generate_summary (src/agent_evaluator.py, lines 155-188); the
`datetime.utcnow()` reading is the ambient argument `ts`. -/
def generate_summary (results : List CaseResult) (ts : String) : Summary :=
  let total_tests := results.length
  let passed := results.countP (fun r => r.status == "passed")
  let failed := results.countP (fun r => r.status == "failed")
  let errors := results.countP (fun r => r.status == "error")
  let avg_score := if 0 < total_tests then ((results.map (·.score)).sum) / (total_tests : ℚ) else 0
  { total_tests := total_tests, passed := passed, failed := failed, errors := errors,
    pass_rate := if 0 < total_tests then (passed : ℚ) / (total_tests : ℚ) else 0,
    average_score := avg_score,
    categories := (rawCategories results).map normalizeCat,
    timestamp := ts }

/-- Number of results carrying category `c`. -/
def catTotal (results : List CaseResult) (c : String) : Nat :=
  results.countP (fun r => r.category == c)

/-- Number of passed results carrying category `c`. -/
def catPassed (results : List CaseResult) (c : String) : Nat :=
  results.countP (fun r => r.category == c && r.status == "passed")

/-- Sum of the scores of the results carrying category `c`. -/
def catSum (results : List CaseResult) (c : String) : ℚ :=
  ((results.filter (fun r => r.category == c)).map (·.score)).sum

/-- First entry of the association list holding key `c`. -/
def findCat : List (String × CatStats) → String → Option CatStats
  | [], _ => none
  | (k, s) :: rest, c => if k = c then some s else findCat rest c

/-- `updateCats` bumps exactly the entry of the processed result's category,
creating it at `catInit` when absent. -/
theorem findCat_updateCats (cats : List (String × CatStats)) (r : CaseResult) (c : String) :
    findCat (updateCats cats r) c =
      if r.category = c then some (bumpCat ((findCat cats c).getD catInit) r)
      else findCat cats c := by
  induction cats with
  | nil =>
    by_cases h : r.category = c <;> simp [updateCats, findCat, h]
  | cons e rest ih =>
    obtain ⟨k, s⟩ := e
    by_cases h1 : k = r.category
    · by_cases h2 : k = c
      · have hrc : r.category = c := h1.symm.trans h2
        simp [updateCats, findCat, h1, h2, hrc]
      · have hrc : ¬ r.category = c := fun hc => h2 (h1.trans hc)
        simp [updateCats, findCat, h1, h2, hrc]
    · by_cases h2 : k = c
      · have hrc : ¬ r.category = c := fun hc => h1 (h2.trans hc.symm)
        have h1' : ¬ c = r.category := fun hc => h1 (h2.trans hc)
        simp [updateCats, findCat, h1, h2, h1', hrc]
      · simp [updateCats, findCat, h1, h2, ih]

/-- Folding `updateCats` over a result list accumulates, per category, the count,
pass count, and score sum of exactly that category's results. -/
theorem findCat_foldl (results : List CaseResult) (cats : List (String × CatStats))
    (c : String) :
    findCat (results.foldl updateCats cats) c =
      if catTotal results c = 0 ∧ findCat cats c = none then none
      else some
        { total := ((findCat cats c).getD catInit).total + catTotal results c,
          passed := ((findCat cats c).getD catInit).passed + catPassed results c,
          avg_score := ((findCat cats c).getD catInit).avg_score + catSum results c } := by
  induction results generalizing cats with
  | nil =>
    cases hf : findCat cats c with
    | none => simp [catTotal, catPassed, catSum, hf]
    | some s => simp [catTotal, catPassed, catSum, hf]
  | cons r rest ih =>
    rw [List.foldl_cons, ih (updateCats cats r), findCat_updateCats]
    by_cases hrc : r.category = c
    · have hb : (r.category == c) = true := by simp [hrc]
      simp only [if_pos hrc]
      have ht : catTotal (r :: rest) c = catTotal rest c + 1 := by
        simp [catTotal, List.countP_cons, hb]
      have hp : catPassed (r :: rest) c =
          catPassed rest c + (if r.status = "passed" then 1 else 0) := by
        by_cases hs : r.status = "passed"
        · have : (r.status == "passed") = true := by simp [hs]
          simp [catPassed, List.countP_cons, hb, this, hs]
        · have : (r.status == "passed") = false := by simp [hs]
          simp [catPassed, List.countP_cons, hb, this, hs]
      have hsum : catSum (r :: rest) c = r.score + catSum rest c := by
        simp [catSum, List.filter_cons, hb]
      rw [if_neg (by simp), ht, hp, hsum]
      rw [if_neg (by omega)]
      cases hfc : findCat cats c with
      | none =>
        simp only [hfc, Option.getD_none, Option.getD_some, bumpCat, catInit,
          Option.some.injEq, CatStats.mk.injEq]
        repeat' apply And.intro
        all_goals first | omega | ring
      | some s =>
        simp only [hfc, Option.getD_some, bumpCat, Option.some.injEq, CatStats.mk.injEq]
        repeat' apply And.intro
        all_goals first | omega | ring
    · have hb : (r.category == c) = false := by simp [hrc]
      simp only [if_neg hrc]
      have ht : catTotal (r :: rest) c = catTotal rest c := by
        simp [catTotal, List.countP_cons, hb]
      have hp : catPassed (r :: rest) c = catPassed rest c := by
        simp [catPassed, List.countP_cons, hb]
      have hsum : catSum (r :: rest) c = catSum rest c := by
        simp [catSum, List.filter_cons, hb]
      rw [ht, hp, hsum]

/-- Normalization commutes with association-list lookup. -/
theorem findCat_map_normalize (cats : List (String × CatStats)) (c : String) :
    findCat (cats.map normalizeCat) c =
      (findCat cats c).map (fun s => { s with avg_score := s.avg_score / (s.total : ℚ) }) := by
  induction cats with
  | nil => rfl
  | cons e rest ih =>
    obtain ⟨k, s⟩ := e
    by_cases h : k = c <;> simp [findCat, normalizeCat, h, ih]

/-- C5: for every non-empty result list, pass_rate is passed/total, average_score is
the sum of all scores (error zeros included) divided by total, and every category
present in the results gets avg_score = its score sum divided by its count, with
passed and total being that category's counts. -/
theorem generate_summary_fractions (results : List CaseResult) (ts : String)
    (h : results ≠ []) :
    (generate_summary results ts).pass_rate =
      ((results.countP (fun r => r.status == "passed")) : ℚ) / (results.length : ℚ) ∧
    (generate_summary results ts).average_score =
      ((results.map (·.score)).sum) / (results.length : ℚ) ∧
    ∀ c, catTotal results c ≠ 0 →
      findCat (generate_summary results ts).categories c =
        some { total := catTotal results c, passed := catPassed results c,
               avg_score := catSum results c / (catTotal results c : ℚ) } := by
  have hlen : 0 < results.length := List.length_pos.2 h
  refine ⟨?_, ?_, ?_⟩
  · simp [generate_summary, hlen]
  · simp [generate_summary, hlen]
  · intro c hc
    show findCat ((rawCategories results).map normalizeCat) c = _
    rw [findCat_map_normalize, rawCategories, findCat_foldl]
    rw [if_neg (fun habs => hc habs.1)]
    simp [findCat, catInit]

/-- Two same-category demonstration results: one passed with score 1, one failed
with score 1/5. -/
def demoResults : List CaseResult :=
  [ { test_id := "t1", category := "compliance_frameworks", query := "q1",
      expected_keywords := ["a"], response := "a", score := 1, status := "passed",
      timestamp := "ts", lambda_duration_ms := none },
    { test_id := "t2", category := "compliance_frameworks", query := "q2",
      expected_keywords := ["b"], response := "c", score := 1/5, status := "failed",
      timestamp := "ts", lambda_duration_ms := none } ]

/-- Witness for C5: the two demonstration results give pass_rate 1/2, overall
average 3/5, and category stats total 2, passed 1, avg_score 3/5. -/
theorem generate_summary_fractions_witness :
    (generate_summary demoResults "ts").pass_rate = 1/2 ∧
    (generate_summary demoResults "ts").average_score = 3/5 ∧
    findCat (generate_summary demoResults "ts").categories "compliance_frameworks" =
      some { total := 2, passed := 1, avg_score := 3/5 } := by
  have h := generate_summary_fractions demoResults "ts" (by decide)
  have h3 := h.2.2 "compliance_frameworks" (by decide)
  have hsum : catSum demoResults "compliance_frameworks" = 1 + 1/5 := by
    simp [catSum, demoResults]
  refine ⟨?_, ?_, ?_⟩
  · rw [h.1, show demoResults.countP (fun r => r.status == "passed") = 1 from by decide,
      show demoResults.length = 2 from by decide]
    norm_num
  · rw [h.2.1]
    have hmap : (demoResults.map (·.score)).sum = 1 + 1/5 := by
      simp [demoResults]
    rw [hmap, show demoResults.length = 2 from by decide]
    norm_num
  · rw [h3, hsum, show catTotal demoResults "compliance_frameworks" = 2 from by decide,
      show catPassed demoResults "compliance_frameworks" = 1 from by decide]
    simp only [Option.some.injEq, CatStats.mk.injEq]
    norm_num

/-- C6: the empty result list yields the all-zero summary — in particular
total_tests 0, pass_rate 0 and average_score 0 — with no division fault. -/
theorem generate_summary_empty (ts : String) :
    generate_summary [] ts =
      { total_tests := 0, passed := 0, failed := 0, errors := 0,
        pass_rate := 0, average_score := 0, categories := [], timestamp := ts } := rfl

/-- The record of the two destination URIs returned by upload_to_s3
(src/agent_evaluator.py, lines 215-218). -/
structure PublishRecord where
  results_s3_uri : String
  summary_s3_uri : String
deriving DecidableEq

/-- The serialized JSON blob of a put_object call, kept structural: either the raw
results array or the summary object (json.dumps with indent 2 is abstracted as the
document's identity). -/
inductive S3Body where
  | resultsDoc (results : List CaseResult)
  | summaryDoc (summary : Summary)
deriving DecidableEq

/-- One put_object call (src/agent_evaluator.py, lines 199-204 and 208-213). -/
structure S3Put where
  bucket : String
  key : String
  body : S3Body
  contentType : String
deriving DecidableEq

/-- Embeds upload_to_s3 (src/agent_evaluator.py, lines 191-218). The single
`datetime.utcnow().strftime("%Y%m%d-%H%M%S")` reading is the ambient argument
`timestamp`; the function emits the two put calls in order and returns the two
URIs. `pfx` is the parameter the source calls "prefix". -/
def upload_to_s3 (results : List CaseResult) (summary : Summary)
    (bucket_name : String) (pfx : String) (timestamp : String) :
    List S3Put × PublishRecord :=
  let results_key := pfx ++ "/results-" ++ timestamp ++ ".json"
  let summary_key := pfx ++ "/summary-" ++ timestamp ++ ".json"
  ([ { bucket := bucket_name, key := results_key, body := .resultsDoc results,
       contentType := "application/json" },
     { bucket := bucket_name, key := summary_key, body := .summaryDoc summary,
       contentType := "application/json" } ],
   { results_s3_uri := "s3://" ++ bucket_name ++ "/" ++ results_key,
     summary_s3_uri := "s3://" ++ bucket_name ++ "/" ++ summary_key })

/-- C7: one timestamp token is shared by both emitted object keys — they are exactly
pfx/results-timestamp.json and pfx/summary-timestamp.json for the single timestamp
argument — and the returned record's two URIs point at those two keys in the given
bucket. -/
theorem upload_to_s3_shared_timestamp (results : List CaseResult) (summary : Summary)
    (bucket_name pfx timestamp : String) :
    ((upload_to_s3 results summary bucket_name pfx timestamp).1.map (fun p => p.key)) =
      [pfx ++ "/results-" ++ timestamp ++ ".json",
       pfx ++ "/summary-" ++ timestamp ++ ".json"] ∧
    (upload_to_s3 results summary bucket_name pfx timestamp).2.results_s3_uri =
      "s3://" ++ bucket_name ++ "/" ++ (pfx ++ "/results-" ++ timestamp ++ ".json") ∧
    (upload_to_s3 results summary bucket_name pfx timestamp).2.summary_s3_uri =
      "s3://" ++ bucket_name ++ "/" ++ (pfx ++ "/summary-" ++ timestamp ++ ".json") :=
  ⟨rfl, rfl, rfl⟩

/-- Embeds the handler's input event (src/agent_evaluator.py, lines 221-250),
restricted to the four keys it reads; `none` models an absent key. `s3Pfx` models
the "s3_prefix" key. -/
structure Event where
  agent_lambda_name : Option String
  s3_bucket : Option String
  s3Pfx : Option String
  session_id : Option String
deriving DecidableEq

/-- Python truthiness test `not value` for an optional string: true when the key
is absent or the string is empty. -/
def falsy : Option String → Bool
  | none => true
  | some s => s.isEmpty

/-- Runs the put calls in order against the storage oracle, stopping at the first
failure, as the two sequential put_object calls would. -/
def runPuts (s3 : S3Put → Except String Unit) : List S3Put → Except String Unit
  | [] => .ok ()
  | p :: ps =>
    match s3 p with
    | .error e => .error e
    | .ok _ => runPuts s3 ps

/-- The JSON body of the handler's structured response: either the error object of
lines 240, 246 and 279-281, or the success object of lines 268-272, kept structural. -/
inductive HandlerBody where
  | errorBody (error : String)
  | successBody (message : String) (summary : Summary) (s3_locations : PublishRecord)
deriving DecidableEq

/-- The handler's structured response: statusCode plus body. -/
structure HandlerResponse where
  statusCode : Nat
  body : HandlerBody
deriving DecidableEq

/-- Embeds lambda_handler (src/agent_evaluator.py, lines 221-282) against the
invocation and storage oracles. The `datetime.utcnow()` readings (session-id
default, per-case result timestamps, summary/upload timestamp) are the ambient
arguments `sessionNow`, `caseTs` and `upTs`. Besides the structured response it
returns the list of invocation payloads sent to the agent, so theorems can state
whether any invocation was attempted. In this embedding the only fault source
inside the try block is the storage oracle: per-case invocation faults are
absorbed inside run_evaluation and never escape it. -/
def lambda_handler (invoke : RequestPayload → InvokeOutcome)
    (s3 : S3Put → Except String Unit) (sessionNow caseTs upTs : String)
    (event : Event) : HandlerResponse × List RequestPayload :=
  if falsy event.agent_lambda_name then
    ({ statusCode := 400,
       body := .errorBody "Missing required parameter: agent_lambda_name" }, [])
  else if falsy event.s3_bucket then
    ({ statusCode := 400,
       body := .errorBody "Missing required parameter: s3_bucket" }, [])
  else
    let bucket_name := event.s3_bucket.getD ""
    let pfx := event.s3Pfx.getD "agent-evaluations"
    let session_id := event.session_id.getD ("eval-" ++ sessionNow)
    let results := run_evaluation invoke session_id caseTs
    let summary := generate_summary results upTs
    let up := upload_to_s3 results summary bucket_name pfx upTs
    let sent := TEST_CASES.map (buildPayload session_id)
    match runPuts s3 up.1 with
    | .error e => ({ statusCode := 500, body := .errorBody e }, sent)
    | .ok _ =>
      ({ statusCode := 200,
         body := .successBody "Evaluation completed successfully" summary up.2 }, sent)

/-- C8: the handler returns 400 with the matching error body and sends no invocation
when agent_lambda_name is missing (or empty — Python truthiness) or, that one being
present, when s3_bucket is; with both present it invokes every test case and returns
500 with the fault's description when a storage put fails, or 200 with the summary
and the two storage locations on success. -/
theorem lambda_handler_status (invoke : RequestPayload → InvokeOutcome)
    (s3 : S3Put → Except String Unit) (sessionNow caseTs upTs : String) (event : Event) :
    (falsy event.agent_lambda_name = true →
      lambda_handler invoke s3 sessionNow caseTs upTs event =
        ({ statusCode := 400,
           body := .errorBody "Missing required parameter: agent_lambda_name" }, [])) ∧
    (falsy event.agent_lambda_name = false → falsy event.s3_bucket = true →
      lambda_handler invoke s3 sessionNow caseTs upTs event =
        ({ statusCode := 400,
           body := .errorBody "Missing required parameter: s3_bucket" }, [])) ∧
    (falsy event.agent_lambda_name = false → falsy event.s3_bucket = false →
      ∀ e, runPuts s3 (upload_to_s3
          (run_evaluation invoke (event.session_id.getD ("eval-" ++ sessionNow)) caseTs)
          (generate_summary
            (run_evaluation invoke (event.session_id.getD ("eval-" ++ sessionNow)) caseTs) upTs)
          (event.s3_bucket.getD "") (event.s3Pfx.getD "agent-evaluations") upTs).1 = .error e →
        lambda_handler invoke s3 sessionNow caseTs upTs event =
          ({ statusCode := 500, body := .errorBody e },
           TEST_CASES.map (buildPayload (event.session_id.getD ("eval-" ++ sessionNow))))) ∧
    (falsy event.agent_lambda_name = false → falsy event.s3_bucket = false →
      runPuts s3 (upload_to_s3
          (run_evaluation invoke (event.session_id.getD ("eval-" ++ sessionNow)) caseTs)
          (generate_summary
            (run_evaluation invoke (event.session_id.getD ("eval-" ++ sessionNow)) caseTs) upTs)
          (event.s3_bucket.getD "") (event.s3Pfx.getD "agent-evaluations") upTs).1 = .ok () →
        lambda_handler invoke s3 sessionNow caseTs upTs event =
          ({ statusCode := 200,
             body := .successBody "Evaluation completed successfully"
               (generate_summary
                 (run_evaluation invoke (event.session_id.getD ("eval-" ++ sessionNow)) caseTs) upTs)
               (upload_to_s3
                 (run_evaluation invoke (event.session_id.getD ("eval-" ++ sessionNow)) caseTs)
                 (generate_summary
                   (run_evaluation invoke (event.session_id.getD ("eval-" ++ sessionNow)) caseTs) upTs)
                 (event.s3_bucket.getD "") (event.s3Pfx.getD "agent-evaluations") upTs).2 },
           TEST_CASES.map (buildPayload (event.session_id.getD ("eval-" ++ sessionNow))))) := by
  refine ⟨?_, ?_, ?_, ?_⟩
  · intro hn
    simp [lambda_handler, hn]
  · intro hn hb
    simp [lambda_handler, hn, hb]
  · intro hn hb e he
    simp only [lambda_handler, hn, hb, Bool.false_eq_true, if_false]
    rw [he]
  · intro hn hb hok
    simp only [lambda_handler, hn, hb, Bool.false_eq_true, if_false]
    rw [hok]

/-- An event missing the agent_lambda_name key. -/
def eventMissingName : Event :=
  { agent_lambda_name := none, s3_bucket := some "bkt", s3Pfx := none, session_id := none }

/-- An event missing the s3_bucket key. -/
def eventMissingBucket : Event :=
  { agent_lambda_name := some "agent-fn", s3_bucket := none, s3Pfx := none,
    session_id := some "sid" }

/-- An event with all four keys present. -/
def eventFull : Event :=
  { agent_lambda_name := some "agent-fn", s3_bucket := some "bkt", s3Pfx := some "pre",
    session_id := some "sid" }

/-- A storage oracle that accepts every put. -/
def s3AlwaysOk : S3Put → Except String Unit := fun _ => .ok ()

/-- A storage oracle that rejects every put. -/
def s3AlwaysFail : S3Put → Except String Unit := fun _ => .error "AccessDenied"

/-- Witness for C8 on concrete events and oracles: both 400 branches, the 500
branch under a failing store, and the 200 branch under a healthy store. -/
theorem lambda_handler_status_witness :
    lambda_handler invokeOkStub s3AlwaysOk "now" "ct" "ut" eventMissingName =
      ({ statusCode := 400,
         body := .errorBody "Missing required parameter: agent_lambda_name" }, []) ∧
    lambda_handler invokeOkStub s3AlwaysOk "now" "ct" "ut" eventMissingBucket =
      ({ statusCode := 400,
         body := .errorBody "Missing required parameter: s3_bucket" }, []) ∧
    lambda_handler invokeOkStub s3AlwaysFail "now" "ct" "ut" eventFull =
      ({ statusCode := 500, body := .errorBody "AccessDenied" },
       TEST_CASES.map (buildPayload "sid")) ∧
    lambda_handler invokeOkStub s3AlwaysOk "now" "ct" "ut" eventFull =
      ({ statusCode := 200,
         body := .successBody "Evaluation completed successfully"
           (generate_summary (run_evaluation invokeOkStub "sid" "ct") "ut")
           (upload_to_s3 (run_evaluation invokeOkStub "sid" "ct")
             (generate_summary (run_evaluation invokeOkStub "sid" "ct") "ut")
             "bkt" "pre" "ut").2 },
       TEST_CASES.map (buildPayload "sid")) := by
  refine ⟨?_, ?_, ?_, ?_⟩
  · exact (lambda_handler_status invokeOkStub s3AlwaysOk "now" "ct" "ut"
      eventMissingName).1 rfl
  · exact (lambda_handler_status invokeOkStub s3AlwaysOk "now" "ct" "ut"
      eventMissingBucket).2.1 rfl rfl
  · exact (lambda_handler_status invokeOkStub s3AlwaysFail "now" "ct" "ut"
      eventFull).2.2.1 rfl rfl "AccessDenied" rfl
  · exact (lambda_handler_status invokeOkStub s3AlwaysOk "now" "ct" "ut"
      eventFull).2.2.2 rfl rfl rfl

end AgentEval
